import Mathlib

/-!
Verification of the smart-storage subsystem of music163bot-rust
(`src/audio_buffer.rs`, configuration from `src/config.rs`).

The Rust code is shallowly embedded: machine integers (`u64`, `usize`, `u8`)
become `Nat` (the source arithmetic here cannot wrap without panicking first),
byte buffers (`Vec<u8>`, `&[u8]`) become `List Nat` with every element below
256, fallible functions returning `anyhow::Result` become `Except String`,
and the file system touched by the disk-backed variant becomes an explicit
map from paths to optional contents that is threaded through each operation.
The live system-memory probe (`sysinfo`) is supplied as an explicit
`available_mb` argument, and the byte string produced by the external `id3`
tag serializer is supplied as an explicit `tag_buffer` argument.
-/

namespace Music163Bot

/-- Storage mode for temporary files during download processing
(`config.rs`, `enum StorageMode`). -/
inductive StorageMode where
  | Disk
  | Memory
  | Hybrid
deriving DecidableEq, Repr

/-- Application configuration (`config.rs`, `struct Config`). -/
structure Config where
  bot_token : String
  music_u : Option String
  bot_api : String
  music_api : String
  bot_admin : List Int
  bot_debug : Bool
  database : String
  log_level : String
  cache_dir : String
  auto_update : Bool
  auto_retry : Bool
  max_retry_times : Nat
  download_timeout : Nat
  check_md5 : Bool
  storage_mode : StorageMode
  memory_threshold_mb : Nat
  memory_buffer_mb : Nat
deriving Repr

/-- Default configuration (`config.rs`, `impl Default for Config`). -/
def Config.default : Config where
  bot_token := ""
  music_u := none
  bot_api := "https://api.telegram.org"
  music_api := "https://music.163.com"
  bot_admin := []
  bot_debug := false
  database := "cache.db"
  log_level := "info"
  cache_dir := "./cache"
  auto_update := true
  auto_retry := true
  max_retry_times := 3
  download_timeout := 60
  check_md5 := true
  storage_mode := StorageMode.Disk
  memory_threshold_mb := 100
  memory_buffer_mb := 100

/-- `AudioBuffer::should_use_memory` (`audio_buffer.rs` lines 120-174).
The call to `Self::get_available_memory_mb()` (a point-in-time `sysinfo`
probe) is replaced by the explicit argument `available_mb`; the rest is a
direct transcription. -/
def should_use_memory (config : Config) (content_length : Nat)
    (available_mb : Nat) : Bool :=
  match config.storage_mode with
  | StorageMode.Disk => false
  | StorageMode.Memory =>
      let required_mb := content_length / (1024 * 1024) + config.memory_buffer_mb
      if available_mb ≥ required_mb then true else false
  | StorageMode.Hybrid =>
      let file_size_mb := content_length / (1024 * 1024)
      if file_size_mb > config.memory_threshold_mb then false
      else
        let required_mb := file_size_mb + config.memory_buffer_mb
        if available_mb ≥ required_mb then true else false

/-- Outcome of the storage-mode policy, as the specification names it. -/
inductive StorageDecision where
  | UseMemory
  | UseDisk
deriving DecidableEq, Repr

/-- The storage decision read off the boolean returned by
`should_use_memory`: `true` means the memory variant is chosen,
`false` the disk variant. -/
def storage_decision (config : Config) (content_length : Nat)
    (available_mb : Nat) : StorageDecision :=
  if should_use_memory config content_length available_mb then
    StorageDecision.UseMemory
  else
    StorageDecision.UseDisk

/-- C1: in Hybrid mode the decision is UseDisk whenever
floor(content_length/1MiB) exceeds the threshold, regardless of available
memory; otherwise it is UseMemory exactly when available memory is at least
floor(content_length/1MiB) plus the buffer margin, and UseDisk otherwise. -/
theorem hybrid_decision_spec (c : Config) (hc : c.storage_mode = StorageMode.Hybrid)
    (content_length available_mb : Nat) :
    (content_length / (1024 * 1024) > c.memory_threshold_mb →
      storage_decision c content_length available_mb = StorageDecision.UseDisk) ∧
    (content_length / (1024 * 1024) ≤ c.memory_threshold_mb →
      ((storage_decision c content_length available_mb = StorageDecision.UseMemory ↔
         available_mb ≥ content_length / (1024 * 1024) + c.memory_buffer_mb) ∧
       (available_mb < content_length / (1024 * 1024) + c.memory_buffer_mb →
         storage_decision c content_length available_mb = StorageDecision.UseDisk))) := by
  refine ⟨fun hbig => ?_, fun hsmall => ⟨?_, fun hlow => ?_⟩⟩ <;>
    simp only [storage_decision, should_use_memory, hc] <;>
    split <;> simp_all <;> omega

/-- C1 witness: the specification's two end-to-end Hybrid scenarios at
50 MiB content, threshold 100 MiB, buffer margin 100 MiB. -/
theorem hybrid_decision_spec_witness :
    storage_decision
      { Config.default with storage_mode := StorageMode.Hybrid } 52428800 500 =
      StorageDecision.UseMemory ∧
    storage_decision
      { Config.default with storage_mode := StorageMode.Hybrid } 52428800 120 =
      StorageDecision.UseDisk := by
  constructor
  · exact ((hybrid_decision_spec
      { Config.default with storage_mode := StorageMode.Hybrid } rfl
      52428800 500).2 (by decide)).1.mpr (by decide)
  · exact ((hybrid_decision_spec
      { Config.default with storage_mode := StorageMode.Hybrid } rfl
      52428800 120).2 (by decide)).2 (by decide)

/-- C2: in Memory mode the decision is UseMemory exactly when available
memory is at least floor(content_length/1MiB) plus the buffer margin; below
that requirement it is the ordinary value UseDisk (the policy function is
total — no error value exists in its result type). -/
theorem memory_mode_decision_spec (c : Config)
    (hc : c.storage_mode = StorageMode.Memory)
    (content_length available_mb : Nat) :
    (storage_decision c content_length available_mb = StorageDecision.UseMemory ↔
      available_mb ≥ content_length / (1024 * 1024) + c.memory_buffer_mb) ∧
    (available_mb < content_length / (1024 * 1024) + c.memory_buffer_mb →
      storage_decision c content_length available_mb = StorageDecision.UseDisk) := by
  refine ⟨?_, fun hlow => ?_⟩ <;>
    simp only [storage_decision, should_use_memory, hc] <;>
    split <;> simp_all <;> omega

/-- C2 witness: Memory mode with 30 MiB content, buffer margin 100 MiB;
131 MiB available memory suffices, 129 MiB forces the disk fallback. -/
theorem memory_mode_decision_spec_witness :
    storage_decision
      { Config.default with storage_mode := StorageMode.Memory } 31457280 131 =
      StorageDecision.UseMemory ∧
    storage_decision
      { Config.default with storage_mode := StorageMode.Memory } 31457280 129 =
      StorageDecision.UseDisk := by
  constructor
  · exact (memory_mode_decision_spec
      { Config.default with storage_mode := StorageMode.Memory } rfl
      31457280 131).1.mpr (by decide)
  · exact (memory_mode_decision_spec
      { Config.default with storage_mode := StorageMode.Memory } rfl
      31457280 129).2 (by decide)

/-- C10: the storage decision is a pure function of the configured mode, the
content length, the probed available memory (an explicit input of the
embedding), the threshold and the buffer margin: two configurations agreeing
on mode, threshold and margin yield the identical decision at every
(content_length, available_mb) pair, whatever their other fields. -/
theorem storage_decision_deterministic (c1 c2 : Config)
    (content_length available_mb : Nat)
    (hm : c1.storage_mode = c2.storage_mode)
    (ht : c1.memory_threshold_mb = c2.memory_threshold_mb)
    (hb : c1.memory_buffer_mb = c2.memory_buffer_mb) :
    storage_decision c1 content_length available_mb =
      storage_decision c2 content_length available_mb := by
  cases hmode : c2.storage_mode <;>
    simp [storage_decision, should_use_memory, hmode, hm.trans hmode, ht, hb]

/-- C10 witness: two configurations differing in every field except mode,
threshold and margin decide identically. -/
theorem storage_decision_deterministic_witness :
    storage_decision
      { Config.default with storage_mode := StorageMode.Hybrid } 123456789 120 =
    storage_decision
      { Config.default with
          bot_token := "t", cache_dir := "/tmp/cache", bot_debug := true,
          storage_mode := StorageMode.Hybrid } 123456789 120 :=
  storage_decision_deterministic _ _ 123456789 120 rfl rfl rfl

/-- Rust slicing `data[start..]`, which panics when `start` exceeds the
length; the panic is modeled as `none`. Used by the memory-variant tag
embedders (`audio_buffer.rs` line 318, `data[audio_start..].to_vec()`, and
line 407, `data[audio_start..].to_vec()`). -/
def slice_from (data : List Nat) (start : Nat) : Option (List Nat) :=
  if start ≤ data.length then some (data.drop start) else none

/-- `AudioBuffer::find_mp3_audio_start` (`audio_buffer.rs` lines 335-348):
offset of the first audio byte after an ID3v2 tag. The marker "ID3" is the
byte string 0x49 0x44 0x33, and the tag size at offset 6 is a 4-byte
syncsafe integer. -/
def find_mp3_audio_start (data : List Nat) : Nat :=
  if data.length < 10 ∨ data.take 3 ≠ [0x49, 0x44, 0x33] then 0
  else
    let size := ((data.getD 6 0) &&& 0x7F) <<< 21 |||
                ((data.getD 7 0) &&& 0x7F) <<< 14 |||
                ((data.getD 8 0) &&& 0x7F) <<< 7 |||
                ((data.getD 9 0) &&& 0x7F)
    10 + size

/-- Memory branch of `AudioBuffer::add_id3_tags` (`audio_buffer.rs` lines
313-327), after the external `id3` crate has serialized the fresh tag into
`tag_buffer`: replace an existing leading ID3 tag, or prepend to untagged
data. The slice `data[audio_start..]` at line 318 panics when the
syncsafe-declared tag size overruns the buffer; the panic is modeled as
`none`. -/
def add_id3_tags_memory (tag_buffer : List Nat) (data : List Nat) :
    Option (List Nat) :=
  if data.length ≥ 3 ∧ data.take 3 = [0x49, 0x44, 0x33] then
    match slice_from data (find_mp3_audio_start data) with
    | some audio_data => some (tag_buffer ++ audio_data)
    | none => none
  else
    some (tag_buffer ++ data)

/-- C3: on a buffer with at least a full 10-byte ID3v2 header, and whose
declared old tag (10 + the syncsafe size decoded from bytes 6..10) does not
overrun the buffer — past its end the source panics on the slice at
line 318 — the memory variant drops exactly that many leading bytes and
prepends the new tag to the remainder; a 10-byte header with declared
size 0 yields audio start exactly 10. -/
theorem mp3_replace_existing_id3_spec :
    (∀ tag_buffer data : List Nat,
      data.take 3 = [0x49, 0x44, 0x33] → 10 ≤ data.length →
      10 + (((data.getD 6 0) &&& 0x7F) <<< 21 |||
            ((data.getD 7 0) &&& 0x7F) <<< 14 |||
            ((data.getD 8 0) &&& 0x7F) <<< 7 |||
            ((data.getD 9 0) &&& 0x7F)) ≤ data.length →
      add_id3_tags_memory tag_buffer data =
        some (tag_buffer ++ data.drop (10 +
          (((data.getD 6 0) &&& 0x7F) <<< 21 |||
           ((data.getD 7 0) &&& 0x7F) <<< 14 |||
           ((data.getD 8 0) &&& 0x7F) <<< 7 |||
           ((data.getD 9 0) &&& 0x7F))))) ∧
    find_mp3_audio_start
      [0x49, 0x44, 0x33, 0x04, 0x00, 0x00, 0x00, 0x00, 0x00, 0x00] = 10 := by
  constructor
  · intro tag_buffer data htake hlen hsize
    have hguard : ¬ (data.length < 10 ∨ data.take 3 ≠ [0x49, 0x44, 0x33]) := by
      push_neg
      exact ⟨by omega, htake⟩
    have hstart : find_mp3_audio_start data =
        10 + (((data.getD 6 0) &&& 0x7F) <<< 21 |||
              ((data.getD 7 0) &&& 0x7F) <<< 14 |||
              ((data.getD 8 0) &&& 0x7F) <<< 7 |||
              ((data.getD 9 0) &&& 0x7F)) := by
      rw [find_mp3_audio_start, if_neg hguard]
    rw [add_id3_tags_memory, if_pos ⟨by omega, htake⟩, hstart, slice_from,
      if_pos hsize]
  · decide

/-- C3 witness: a 12-byte buffer holding a size-0 ID3v2 header followed by
the two sync bytes 0xFF 0xFB; the old 10-byte tag is discarded and only the
sync bytes are kept after the new tag. -/
theorem mp3_replace_existing_id3_spec_witness :
    add_id3_tags_memory [7, 8]
      [0x49, 0x44, 0x33, 0x04, 0x00, 0x00, 0x00, 0x00, 0x00, 0x00, 0xFF, 0xFB] =
      some [7, 8, 0xFF, 0xFB] := by
  rw [mp3_replace_existing_id3_spec.1 [7, 8]
    [0x49, 0x44, 0x33, 0x04, 0x00, 0x00, 0x00, 0x00, 0x00, 0x00, 0xFF, 0xFB]
    (by decide) (by decide) (by decide)]
  decide

/-- C4: on a buffer that does not begin with the marker "ID3", the memory
variant leaves every original byte unchanged and yields exactly
new tag bytes ++ original bytes. -/
theorem mp3_prepend_no_id3_spec (tag_buffer data : List Nat)
    (h : ¬ (data.length ≥ 3 ∧ data.take 3 = [0x49, 0x44, 0x33])) :
    add_id3_tags_memory tag_buffer data = some (tag_buffer ++ data) := by
  rw [add_id3_tags_memory, if_neg h]

/-- C4 witness: a three-byte buffer starting with an MP3 sync word. -/
theorem mp3_prepend_no_id3_spec_witness :
    add_id3_tags_memory [1, 2] [0xFF, 0xFB, 0x90] =
      some [1, 2, 0xFF, 0xFB, 0x90] :=
  mp3_prepend_no_id3_spec [1, 2] [0xFF, 0xFB, 0x90] (by decide)

/-- Body length of the FLAC metadata block whose 4-byte header starts at
`pos`: bytes 1-3 of the header as a big-endian 24-bit integer
(`u32::from_be_bytes([0, data[pos+1], data[pos+2], data[pos+3]])` in
`audio_buffer.rs` lines 460-461). -/
def flac_block_len (data : List Nat) (pos : Nat) : Nat :=
  (data.getD (pos + 1) 0) * 65536 + (data.getD (pos + 2) 0) * 256 +
    data.getD (pos + 3) 0

/-- Loop of `AudioBuffer::find_flac_audio_start` (`audio_buffer.rs` lines
451-468): from `pos`, read 4-byte block headers, advance by 4 + body
length, stop after a header whose byte 0 has the most-significant bit set. -/
def flac_walk (data : List Nat) (pos : Nat) : Except String Nat :=
  if h : pos + 4 > data.length then
    Except.error "Unexpected end of FLAC metadata"
  else if data.getD pos 0 &&& 0x80 ≠ 0 then
    Except.ok (pos + 4 + flac_block_len data pos)
  else
    flac_walk data (pos + 4 + flac_block_len data pos)
termination_by data.length - pos
decreasing_by simp_wf; omega

/-- `AudioBuffer::find_flac_audio_start` (`audio_buffer.rs` lines 443-471):
check the 4-byte magic "fLaC" (0x66 0x4C 0x61 0x43), then walk the
metadata-block chain from offset 4. -/
def find_flac_audio_start (data : List Nat) : Except String Nat :=
  if data.length < 8 ∨ data.take 4 ≠ [0x66, 0x4C, 0x61, 0x43] then
    Except.error "Not a valid FLAC file"
  else
    flac_walk data 4

/-- Declarative reading of the metadata-block chain: `FlacChain data pos off`
holds when a sequence of block headers starting at `pos`, each fitting in the
buffer and advancing by 4 + its big-endian 24-bit body length, reaches a
header with the is-last flag (byte 0, bit 7) set, leaving the cursor at
`off`. -/
inductive FlacChain (data : List Nat) : Nat → Nat → Prop where
  | last (pos : Nat) (hfit : pos + 4 ≤ data.length)
      (hlast : data.getD pos 0 &&& 0x80 ≠ 0) :
      FlacChain data pos (pos + 4 + flac_block_len data pos)
  | step (pos off : Nat) (hfit : pos + 4 ≤ data.length)
      (hmore : data.getD pos 0 &&& 0x80 = 0)
      (hrest : FlacChain data (pos + 4 + flac_block_len data pos) off) :
      FlacChain data pos off

/-- The loop succeeds on every chain in the declarative sense. -/
theorem flac_walk_of_chain {data : List Nat} {pos off : Nat}
    (h : FlacChain data pos off) : flac_walk data pos = Except.ok off := by
  induction h with
  | last pos hfit hlast =>
      rw [flac_walk, dif_neg (by omega), if_pos hlast]
  | step pos off hfit hmore hrest ih =>
      rw [flac_walk, dif_neg (by omega), if_neg (not_ne_iff.mpr hmore)]
      exact ih

/-- Every success of the loop arises from a declarative chain. -/
theorem chain_of_flac_walk {data : List Nat} : ∀ {pos off : Nat},
    flac_walk data pos = Except.ok off → FlacChain data pos off := by
  intro pos off h
  rw [flac_walk] at h
  by_cases hfit : pos + 4 > data.length
  · rw [dif_pos hfit] at h
    exact absurd h (by simp)
  · rw [dif_neg hfit] at h
    by_cases hlast : data.getD pos 0 &&& 0x80 ≠ 0
    · rw [if_pos hlast] at h
      exact Except.ok.inj h ▸ FlacChain.last pos (by omega) hlast
    · rw [if_neg hlast] at h
      exact FlacChain.step pos off (by omega) (not_ne_iff.mp hlast)
        (chain_of_flac_walk h)
termination_by pos => data.length - pos
decreasing_by simp_wf; omega

/-- Minimal FLAC container from the unit test `test_find_flac_audio_start`:
magic, one last StreamInfo block header (0x80, length 34), a 34-byte body,
then audio bytes. -/
def flacMinimal : List Nat :=
  [0x66, 0x4C, 0x61, 0x43, 0x80, 0x00, 0x00, 0x22] ++
    List.replicate 34 0 ++ [0xFF, 0xF8]

/-- C5: on a buffer with the "fLaC" magic (and the length-8 minimum the
parser demands), the returned offsets are exactly the cursor positions
reached by walking the metadata-block chain from offset 4 — 4-byte headers,
big-endian 24-bit body lengths, stopping after a header with the last flag
set; on the minimal container with a single last block of declared length 34
the offset is 42. -/
theorem flac_audio_start_chain_spec :
    (∀ data : List Nat, 8 ≤ data.length →
      data.take 4 = [0x66, 0x4C, 0x61, 0x43] →
      ∀ off, (find_flac_audio_start data = Except.ok off ↔ FlacChain data 4 off)) ∧
    find_flac_audio_start flacMinimal = Except.ok 42 := by
  constructor
  · intro data hlen htake off
    rw [find_flac_audio_start, if_neg (by push_neg; exact ⟨by omega, htake⟩)]
    exact ⟨chain_of_flac_walk, flac_walk_of_chain⟩
  · have h42 : FlacChain flacMinimal 4 42 :=
      FlacChain.last 4 (by decide) (by decide)
    rw [find_flac_audio_start, if_neg (by decide)]
    exact flac_walk_of_chain h42

/-- C5 witness: instantiating the chain characterization on the minimal
container certifies the declarative chain ending at offset 42. -/
theorem flac_audio_start_chain_spec_witness : FlacChain flacMinimal 4 42 :=
  (flac_audio_start_chain_spec.1 flacMinimal (by decide) (by decide) 42).mp
    flac_audio_start_chain_spec.2

/-- C6: the FLAC audio-start parser returns an error — never an offset —
when the buffer does not begin with "fLaC", and also whenever no
metadata-block chain (each header fitting inside the buffer) reaches a
last-flagged header, i.e. when the walk runs off the end of the buffer. -/
theorem flac_audio_start_error_spec (data : List Nat) :
    (data.take 4 ≠ [0x66, 0x4C, 0x61, 0x43] →
      ∃ e, find_flac_audio_start data = Except.error e) ∧
    ((¬ ∃ off, FlacChain data 4 off) →
      ∃ e, find_flac_audio_start data = Except.error e) := by
  constructor
  · intro hmagic
    exact ⟨_, by rw [find_flac_audio_start, if_pos (Or.inr hmagic)]⟩
  · intro hnone
    rw [find_flac_audio_start]
    split
    · exact ⟨_, rfl⟩
    · cases hw : flac_walk data 4 with
      | error e => exact ⟨e, rfl⟩
      | ok off => exact absurd ⟨off, chain_of_flac_walk hw⟩ hnone


/-- C6 witness: a three-byte buffer has neither the magic nor any chain from
offset 4 (no header fits), and the parser errors both ways. -/
theorem flac_audio_start_error_spec_witness :
    (∃ e, find_flac_audio_start [0, 1, 2] = Except.error e) ∧
    (∃ e, find_flac_audio_start [0, 1, 2] = Except.error e) :=
  ⟨(flac_audio_start_error_spec [0, 1, 2]).1 (by decide),
   (flac_audio_start_error_spec [0, 1, 2]).2 (by
     rintro ⟨off, hc⟩
     cases hc <;> simp_all)⟩

/-- Opening steps of `AudioBuffer::add_flac_picture_memory`
(`audio_buffer.rs` lines 405-407): locate the audio start, then slice the
audio tail off the buffer. -/
def add_flac_picture_memory_audio (data : List Nat) :
    Except String (Option (List Nat)) :=
  match find_flac_audio_start data with
  | Except.error e => Except.error e
  | Except.ok audio_start => Except.ok (slice_from data audio_start)

/-- Truncated container: magic, then a single last-flagged header declaring
a 34-byte body that is absent. -/
def flacTruncated : List Nat := [0x66, 0x4C, 0x61, 0x43, 0x80, 0x00, 0x00, 0x22]

/-- C7: on an 8-byte buffer whose last-flagged block declares a body running
past the end, the parser returns Ok 42 although the buffer has only 8 bytes,
and the slice `data[audio_start..]` taken next by the memory-variant FLAC
embedder is out of bounds (a panic, modeled as `none`). -/
theorem flac_truncated_last_block_oob :
    find_flac_audio_start flacTruncated = Except.ok 42 ∧
    flacTruncated.length = 8 ∧
    42 > flacTruncated.length ∧
    add_flac_picture_memory_audio flacTruncated = Except.ok none := by
  have h42 : FlacChain flacTruncated 4 42 :=
    FlacChain.last 4 (by decide) (by decide)
  have hfind : find_flac_audio_start flacTruncated = Except.ok 42 := by
    rw [find_flac_audio_start, if_neg (by decide)]
    exact flac_walk_of_chain h42
  refine ⟨hfind, by decide, by decide, ?_⟩
  rw [add_flac_picture_memory_audio, hfind]
  rfl

/-- Abstract file system threaded through the disk-backed operations: a map
from paths to the contents of the files that exist. -/
def FS := String → Option (List Nat)

/-- Point update of the abstract file system. -/
def fs_update (fs : FS) (path : String) (contents : Option (List Nat)) : FS :=
  fun p => if p = path then contents else fs p

/-- `enum AudioBuffer` (`audio_buffer.rs` lines 20-33): disk variant with
path, optional open file handle and filename; memory variant with byte
vector, filename and reserved capacity. -/
inductive AudioBuffer where
  | Disk (path : String) (file : Option Unit) (filename : String)
  | Memory (data : List Nat) (filename : String) (capacity : Nat)

/-- `AudioBuffer::new` (`audio_buffer.rs` lines 52-97): pick the variant via
`should_use_memory`; the memory variant starts empty with capacity
`content_length` (10 MiB when the length is 0), the disk variant creates
(truncates) `cache_dir/filename`. File creation in the abstract file system
always succeeds, so the `Result` wrapper of the source carries no error
case here. -/
def AudioBuffer.new (config : Config) (content_length : Nat)
    (filename cache_dir : String) (available_mb : Nat) (fs : FS) :
    AudioBuffer × FS :=
  if should_use_memory config content_length available_mb then
    let capacity := if content_length > 0 then content_length else 10 * 1024 * 1024
    (AudioBuffer.Memory [] filename capacity, fs)
  else
    let file_path := cache_dir ++ "/" ++ filename
    (AudioBuffer.Disk file_path (some ()) filename,
      fs_update fs file_path (some []))

/-- `AudioBuffer::write_chunk` (`audio_buffer.rs` lines 184-198): disk with
an open handle appends to the file, disk without a handle is a silent no-op,
memory extends the byte vector. -/
def AudioBuffer.write_chunk (buf : AudioBuffer) (fs : FS) (chunk : List Nat) :
    AudioBuffer × FS :=
  match buf with
  | AudioBuffer.Disk path file filename =>
      match file with
      | some _ =>
          (AudioBuffer.Disk path file filename,
            fs_update fs path (some ((fs path).getD [] ++ chunk)))
      | none => (AudioBuffer.Disk path none filename, fs)
  | AudioBuffer.Memory data filename capacity =>
      (AudioBuffer.Memory (data ++ chunk) filename capacity, fs)

/-- `AudioBuffer::finish` (`audio_buffer.rs` lines 201-213): flush the disk
handle (contents unchanged), nothing for memory. -/
def AudioBuffer.finish (buf : AudioBuffer) (fs : FS) : AudioBuffer × FS :=
  (buf, fs)

/-- `AudioBuffer::get_data` (`audio_buffer.rs` lines 484-491): disk reads
the whole file back (an error if it no longer exists), memory returns a copy
of its vector. -/
def AudioBuffer.get_data (buf : AudioBuffer) (fs : FS) :
    Except String (List Nat) :=
  match buf with
  | AudioBuffer.Disk path _ _ =>
      match fs path with
      | some contents => Except.ok contents
      | none => Except.error ("Failed to read file: " ++ path)
  | AudioBuffer.Memory data _ _ => Except.ok data

/-- `AudioBuffer::cleanup` (`audio_buffer.rs` lines 494-511): drop the
handle, then delete the file only if it still exists; the outcome of the
underlying OS deletion is the explicit argument `remove_result`, and a
deletion error is propagated with context, as the `?` in the source does.
Memory buffers do nothing. -/
def AudioBuffer.cleanup (buf : AudioBuffer) (fs : FS)
    (remove_result : Except String Unit) : Except String FS :=
  match buf with
  | AudioBuffer.Disk path _ _ =>
      if (fs path).isSome then
        match remove_result with
        | Except.ok _ => Except.ok (fs_update fs path none)
        | Except.error e =>
            Except.error ("Failed to remove file: " ++ path ++ ": " ++ e)
      else Except.ok fs
  | AudioBuffer.Memory _ _ _ => Except.ok fs

/-- Sequential append of a list of chunks, as the streaming download does. -/
def write_chunks : AudioBuffer → FS → List (List Nat) → AudioBuffer × FS
  | buf, fs, [] => (buf, fs)
  | buf, fs, chunk :: rest =>
      write_chunks (AudioBuffer.write_chunk buf fs chunk).1
        (AudioBuffer.write_chunk buf fs chunk).2 rest

/-- The full create / append / finalize / read-back pipeline of one
download, in the order the caller runs it. -/
def download_roundtrip (config : Config) (content_length : Nat)
    (filename cache_dir : String) (available_mb : Nat) (fs : FS)
    (chunks : List (List Nat)) : Except String (List Nat) :=
  let s0 := AudioBuffer.new config content_length filename cache_dir available_mb fs
  let s1 := write_chunks s0.1 s0.2 chunks
  let s2 := AudioBuffer.finish s1.1 s1.2
  AudioBuffer.get_data s2.1 s2.2

theorem write_chunks_memory (data : List Nat) (filename : String)
    (capacity : Nat) (fs : FS) (chunks : List (List Nat)) :
    write_chunks (AudioBuffer.Memory data filename capacity) fs chunks =
      (AudioBuffer.Memory (data ++ chunks.flatten) filename capacity, fs) := by
  induction chunks generalizing data with
  | nil => simp [write_chunks]
  | cons c cs ih =>
      rw [write_chunks]
      simp only [AudioBuffer.write_chunk]
      rw [ih]
      simp [List.append_assoc]

theorem write_chunks_disk (path filename : String) (fs : FS) (cur : List Nat)
    (hcur : fs path = some cur) (chunks : List (List Nat)) :
    (write_chunks (AudioBuffer.Disk path (some ()) filename) fs chunks).1 =
      AudioBuffer.Disk path (some ()) filename ∧
    (write_chunks (AudioBuffer.Disk path (some ()) filename) fs chunks).2 path =
      some (cur ++ chunks.flatten) := by
  induction chunks generalizing fs cur with
  | nil => exact ⟨rfl, by simpa [write_chunks] using hcur⟩
  | cons c cs ih =>
      rw [write_chunks]
      simp only [AudioBuffer.write_chunk]
      have h2 := ih (fs_update fs path (some ((fs path).getD [] ++ c)))
        (cur ++ c) (by simp [fs_update, hcur])
      simpa [List.append_assoc] using h2

/-- C8: for every chunk sequence, creating a buffer (either variant the
policy picks), appending the chunks in order, finalizing and reading back
yields exactly the concatenation of the chunks. -/
theorem audio_buffer_roundtrip (config : Config) (content_length : Nat)
    (filename cache_dir : String) (available_mb : Nat) (fs : FS)
    (chunks : List (List Nat)) :
    download_roundtrip config content_length filename cache_dir available_mb
      fs chunks = Except.ok chunks.flatten := by
  rw [download_roundtrip]
  by_cases hm : should_use_memory config content_length available_mb
  · simp only [AudioBuffer.new, if_pos hm, AudioBuffer.finish]
    rw [write_chunks_memory]
    simp [AudioBuffer.get_data]
  · simp only [AudioBuffer.new, if_neg hm, AudioBuffer.finish]
    obtain ⟨h1, h2⟩ := write_chunks_disk (cache_dir ++ "/" ++ filename) filename
      (fs_update fs (cache_dir ++ "/" ++ filename) (some [])) []
      (by simp [fs_update]) chunks
    rw [h1, AudioBuffer.get_data, h2]
    simp

/-- C9 counterexample: deletion failures ARE propagated — on a disk buffer
whose file still exists, a failing OS deletion makes cleanup return the
error, contradicting the claim that such failures never reach the caller. -/
theorem cleanup_propagates_delete_failure :
    AudioBuffer.cleanup (AudioBuffer.Disk "./cache/a.mp3" (some ()) "a.mp3")
      (fs_update (fun _ => none) "./cache/a.mp3" (some [1, 2, 3]))
      (Except.error "permission denied") =
      Except.error "Failed to remove file: ./cache/a.mp3: permission denied" := by
  rfl

/-- C9 amended: cleanup of a disk buffer deletes the backing file only if it
still exists; absence is not an error (so a second cleanup after a
successful one returns Ok), but a failure of the deletion itself is
propagated to the caller as an error. -/
theorem cleanup_spec (path filename : String) (u : Option Unit) (fs : FS)
    (rr : Except String Unit) (e : String) :
    (fs path = none →
      AudioBuffer.cleanup (AudioBuffer.Disk path u filename) fs rr =
        Except.ok fs) ∧
    ((fs path).isSome →
      AudioBuffer.cleanup (AudioBuffer.Disk path u filename) fs (Except.ok ()) =
        Except.ok (fs_update fs path none) ∧
      AudioBuffer.cleanup (AudioBuffer.Disk path u filename)
          (fs_update fs path none) rr =
        Except.ok (fs_update fs path none)) ∧
    ((fs path).isSome →
      AudioBuffer.cleanup (AudioBuffer.Disk path u filename) fs
          (Except.error e) =
        Except.error ("Failed to remove file: " ++ path ++ ": " ++ e)) := by
  refine ⟨fun habs => ?_, fun hsome => ⟨?_, ?_⟩, fun hsome => ?_⟩ <;>
    simp_all [AudioBuffer.cleanup, fs_update]

/-- C9 amended witness: a file present at "a" is deleted on the first
cleanup, a second cleanup succeeds on the now-absent file, and a failing
deletion surfaces its error. -/
theorem cleanup_spec_witness :
    (AudioBuffer.cleanup (AudioBuffer.Disk "a" (some ()) "a.mp3")
        (fs_update (fun _ => none) "a" (some [1])) (Except.ok ()) =
      Except.ok (fs_update (fs_update (fun _ => none) "a" (some [1])) "a" none) ∧
     AudioBuffer.cleanup (AudioBuffer.Disk "a" (some ()) "a.mp3")
        (fs_update (fs_update (fun _ => none) "a" (some [1])) "a" none)
        (Except.error "gone") =
      Except.ok (fs_update (fs_update (fun _ => none) "a" (some [1])) "a" none)) ∧
    AudioBuffer.cleanup (AudioBuffer.Disk "a" (some ()) "a.mp3")
        (fs_update (fun _ => none) "a" (some [1])) (Except.error "denied") =
      Except.error ("Failed to remove file: " ++ "a" ++ ": " ++ "denied") :=
  ⟨(cleanup_spec "a" "a.mp3" (some ()) (fs_update (fun _ => none) "a" (some [1]))
      (Except.error "gone") "denied").2.1 rfl,
   (cleanup_spec "a" "a.mp3" (some ()) (fs_update (fun _ => none) "a" (some [1]))
      (Except.error "gone") "denied").2.2 rfl⟩

end Music163Bot
